import Mathlib

/-!
Shallow embedding of the extension-component build orchestrator of this
repository (crates/node/builder/src/builder/ext.rs), of the txpool RPC
surface (crates/rpc/rpc/src/txpool.rs) and of the sync-stage reset command
(bin/reth/src/commands/stage/drop.rs), together with theorems settling the
frozen claims about them.

Conventions of the embedding:
* Rust `Option<T>` becomes `Option T`; `eyre::Result<T>` becomes
  `Except Err T` with an abstract error type `Err`.
* A hook (`OnComponentsInitializedHook`) is an asynchronous build step that
  receives a context (core launch context plus an exclusive view of the
  component container) and returns success or failure, having possibly
  mutated the container.  Since the driver awaits each hook's future before
  any other access to the stage, the future is embedded as the function
  applied to the container state at the point of invocation, returning the
  outcome together with the updated container.
* Trait objects (`Box<dyn ...>`) become plain function values; the concrete
  component types behind `N::Pipeline`, `N::Engine`, `N::Rpc`, the shutdown
  receiver, the core node handle and the launch context are type parameters.
* The driver is instrumented with an invocation trace: the list of stages
  whose hook future was awaited, in program order.  The trace records
  exactly the `builder.await` events of `NodeComponentsExtBuild::build`.
-/

namespace NodeBuilderExt

/-- Identifier of one of the three primary build stages. -/
inductive BuildStageId : Type
  | pipeline
  | engine
  | rpc
deriving DecidableEq

/-- The engine component: `N::Engine` of the source, which exposes
`shutdown_rx_mut` giving mutable access to the shutdown receiver stored
inside the engine component (ext.rs line 86).  `payload` stands for the
rest of the component's state. -/
structure EngineComponent (E Rx : Type) : Type where
  payload : E
  shutdown_rx : Rx

/-- `WithComponentsExt` (ext.rs lines 266-273): the component container
holding the core node handle and the optional extension slots. -/
structure WithComponentsExt (Core P E Rx R : Type) : Type where
  core : Core
  pipeline : Option P
  engine : Option (EngineComponent E Rx)
  engine_shutdown_rx : Option Rx
  rpc : Option R

/-- `WithComponentsExt::new` (ext.rs lines 276-288): every extension slot
starts empty. -/
def WithComponentsExt.new {Core P E Rx R : Type} (core : Core) :
    WithComponentsExt Core P E Rx R :=
  { core := core
    pipeline := none
    engine := none
    engine_shutdown_rx := none
    rpc := none }

/-- `OnComponentsInitializedHook` (used at ext.rs lines 95-99): a build
hook.  It receives the core launch context and the container (the two parts
of `ExtBuilderContext`), and returns its outcome together with the possibly
mutated container. -/
def OnComponentsInitializedHook (CoreCtx Core P E Rx R Err : Type) : Type :=
  CoreCtx → WithComponentsExt Core P E Rx R →
    Except Err Unit × WithComponentsExt Core P E Rx R

/-- `OnRpcStarted` (ext.rs line 110): a post-RPC-start hook, receiving a
handle to the running server and returning success or failure. -/
def OnRpcStarted (Handle Err : Type) : Type :=
  Handle → Except Err Unit

/-- `ExtComponentsBuildStage` (ext.rs lines 115-124): the build-stage
orchestrator.  The context builder field of the source is the canonical
pairing of the cloned core context with the exclusively borrowed container
(the free function `build_ctx`, ext.rs lines 240-248), which the embedding
realises by handing both directly to the hook. -/
structure ExtComponentsBuildStage (CoreCtx Core P E Rx R Err Handle : Type) :
    Type where
  core_ctx : CoreCtx
  components : WithComponentsExt Core P E Rx R
  pipeline_builder : Option (OnComponentsInitializedHook CoreCtx Core P E Rx R Err)
  engine_builder : Option (OnComponentsInitializedHook CoreCtx Core P E Rx R Err)
  rpc_builder : Option (OnComponentsInitializedHook CoreCtx Core P E Rx R Err)
  rpc_add_ons : List (OnRpcStarted Handle Err)

variable {CoreCtx Core P E Rx R Err Handle : Type}

/-- `ExtComponentsBuildStage::new` (ext.rs lines 127-145): no hooks
registered, no post-start hooks. -/
def ExtComponentsBuildStage.new (core_ctx : CoreCtx)
    (components : WithComponentsExt Core P E Rx R) :
    ExtComponentsBuildStage CoreCtx Core P E Rx R Err Handle :=
  { core_ctx := core_ctx
    components := components
    pipeline_builder := none
    engine_builder := none
    rpc_builder := none
    rpc_add_ons := [] }

namespace StageExtComponentsBuild

/-- Registration of the pipeline hook (ext.rs lines 172-174): overwrites
the slot. -/
def pipeline_builder (s : ExtComponentsBuildStage CoreCtx Core P E Rx R Err Handle)
    (b : OnComponentsInitializedHook CoreCtx Core P E Rx R Err) :
    ExtComponentsBuildStage CoreCtx Core P E Rx R Err Handle :=
  { s with pipeline_builder := some b }

/-- Registration of the engine hook (ext.rs lines 176-178). -/
def engine_builder (s : ExtComponentsBuildStage CoreCtx Core P E Rx R Err Handle)
    (b : OnComponentsInitializedHook CoreCtx Core P E Rx R Err) :
    ExtComponentsBuildStage CoreCtx Core P E Rx R Err Handle :=
  { s with engine_builder := some b }

/-- Registration of the rpc hook (ext.rs lines 180-182). -/
def rpc_builder (s : ExtComponentsBuildStage CoreCtx Core P E Rx R Err Handle)
    (b : OnComponentsInitializedHook CoreCtx Core P E Rx R Err) :
    ExtComponentsBuildStage CoreCtx Core P E Rx R Err Handle :=
  { s with rpc_builder := some b }

/-- `on_rpc_started` (ext.rs lines 209-211): pushes the hook onto the list
of post-start hooks. -/
def on_rpc_started (s : ExtComponentsBuildStage CoreCtx Core P E Rx R Err Handle)
    (hook : OnRpcStarted Handle Err) :
    ExtComponentsBuildStage CoreCtx Core P E Rx R Err Handle :=
  { s with rpc_add_ons := s.rpc_add_ons ++ [hook] }

/-- `engine_shutdown_rx` (ext.rs lines 85-91): if an engine component is
present, `mem::take` its stored shutdown receiver (returning it and leaving
the default value in its place); otherwise return the default value. -/
def engine_shutdown_rx [Inhabited Rx]
    (s : ExtComponentsBuildStage CoreCtx Core P E Rx R Err Handle) :
    Rx × ExtComponentsBuildStage CoreCtx Core P E Rx R Err Handle :=
  match s.components.engine with
  | some eng =>
      (eng.shutdown_rx,
        { s with components :=
            { s.components with
                engine := some { eng with shutdown_rx := default } } })
  | none => (default, s)

/-- `build_pipeline` (ext.rs lines 191-195): `take` the pipeline hook out
of its slot (leaving `none`); if one was registered, build a fresh context
and return the hook's future (embedded as its outcome over the container at
invocation time). -/
def build_pipeline (s : ExtComponentsBuildStage CoreCtx Core P E Rx R Err Handle) :
    Option (Except Err Unit × WithComponentsExt Core P E Rx R) ×
      ExtComponentsBuildStage CoreCtx Core P E Rx R Err Handle :=
  match s.pipeline_builder with
  | none => (none, s)
  | some b => (some (b s.core_ctx s.components), { s with pipeline_builder := none })

/-- `build_engine` (ext.rs lines 197-201). -/
def build_engine (s : ExtComponentsBuildStage CoreCtx Core P E Rx R Err Handle) :
    Option (Except Err Unit × WithComponentsExt Core P E Rx R) ×
      ExtComponentsBuildStage CoreCtx Core P E Rx R Err Handle :=
  match s.engine_builder with
  | none => (none, s)
  | some b => (some (b s.core_ctx s.components), { s with engine_builder := none })

/-- `build_rpc` (ext.rs lines 203-207). -/
def build_rpc (s : ExtComponentsBuildStage CoreCtx Core P E Rx R Err Handle) :
    Option (Except Err Unit × WithComponentsExt Core P E Rx R) ×
      ExtComponentsBuildStage CoreCtx Core P E Rx R Err Handle :=
  match s.rpc_builder with
  | none => (none, s)
  | some b => (some (b s.core_ctx s.components), { s with rpc_builder := none })

end StageExtComponentsBuild

open StageExtComponentsBuild

/-- The rpc step of `NodeComponentsExtBuild::build` (ext.rs lines 67-71):
await the rpc hook's future if one was registered, then on success return
the core node handle of the container.  The third component is the
invocation trace contributed by this step. -/
def buildRpcStep (s : ExtComponentsBuildStage CoreCtx Core P E Rx R Err Handle) :
    Except Err Core × ExtComponentsBuildStage CoreCtx Core P E Rx R Err Handle ×
      List BuildStageId :=
  match build_rpc s with
  | (none, s1) => (Except.ok s1.components.core, s1, [])
  | (some (Except.error e, comps), s1) =>
      (Except.error e, { s1 with components := comps }, [BuildStageId.rpc])
  | (some (Except.ok _, comps), s1) =>
      (Except.ok comps.core, { s1 with components := comps }, [BuildStageId.rpc])

/-- The engine step of `NodeComponentsExtBuild::build` (ext.rs lines
64-66) followed by the rpc step. -/
def buildEngineStep (s : ExtComponentsBuildStage CoreCtx Core P E Rx R Err Handle) :
    Except Err Core × ExtComponentsBuildStage CoreCtx Core P E Rx R Err Handle ×
      List BuildStageId :=
  match build_engine s with
  | (none, s1) => buildRpcStep s1
  | (some (Except.error e, comps), s1) =>
      (Except.error e, { s1 with components := comps }, [BuildStageId.engine])
  | (some (Except.ok _, comps), s1) =>
      let r := buildRpcStep { s1 with components := comps }
      (r.1, r.2.1, BuildStageId.engine :: r.2.2)

/-- `NodeComponentsExtBuild::build` (ext.rs lines 51-73): await the
pipeline hook's future if registered (propagating its failure), then the
engine hook's, then the rpc hook's, and on success return the core node
handle.  The result is paired with the final stage state and the trace of
hook invocations. -/
def NodeComponentsExtBuild.build
    (s : ExtComponentsBuildStage CoreCtx Core P E Rx R Err Handle) :
    Except Err Core × ExtComponentsBuildStage CoreCtx Core P E Rx R Err Handle ×
      List BuildStageId :=
  match build_pipeline s with
  | (none, s1) => buildEngineStep s1
  | (some (Except.error e, comps), s1) =>
      (Except.error e, { s1 with components := comps }, [BuildStageId.pipeline])
  | (some (Except.ok _, comps), s1) =>
      let r := buildEngineStep { s1 with components := comps }
      (r.1, r.2.1, BuildStageId.pipeline :: r.2.2)

/-- The stages with a registered hook, in the fixed driver order. -/
def registeredStages
    (s : ExtComponentsBuildStage CoreCtx Core P E Rx R Err Handle) :
    List BuildStageId :=
  (if s.pipeline_builder.isSome then [BuildStageId.pipeline] else []) ++
  (if s.engine_builder.isSome then [BuildStageId.engine] else []) ++
  (if s.rpc_builder.isSome then [BuildStageId.rpc] else [])

end NodeBuilderExt

namespace NodeBuilderExt

variable {CoreCtx Core P E Rx R Err Handle : Type}

/-- Modelled from the spec: the driver that runs the registered
post-RPC-start hooks is not among the sources under review (ext.rs only
registers them via `on_rpc_started`).  Per the spec, all registered
post-start hooks run in registration order, each independently allowed to
fail, with the per-hook results collected rather than aborting the
siblings. -/
def runPostStartHooks (hooks : List (OnRpcStarted Handle Err)) (h : Handle) :
    List (Except Err Unit) :=
  hooks.map fun f => f h

/-- Modelled from the spec: the post-start phase follows the build; the
post-start hooks run only once the rpc stage has succeeded (i.e. the build
returned success), and none of them runs when the build failed. -/
def buildAndRunPostStartHooks
    (s : ExtComponentsBuildStage CoreCtx Core P E Rx R Err Handle) (h : Handle) :
    (Except Err Core × ExtComponentsBuildStage CoreCtx Core P E Rx R Err Handle ×
      List BuildStageId) × List (Except Err Unit) :=
  match NodeComponentsExtBuild.build s with
  | (Except.ok v, s1, tr) => ((Except.ok v, s1, tr), runPostStartHooks s1.rpc_add_ons h)
  | (Except.error e, s1, tr) => ((Except.error e, s1, tr), [])

end NodeBuilderExt

namespace TxPoolRpc

/-!
Embedding of crates/rpc/rpc/src/txpool.rs.  The `BTreeMap`s keyed by sender
address and by nonce string are modelled as association lists with unique
keys; `insert` replaces the binding of an existing key and appends a new
binding (the sorted iteration order of `BTreeMap` plays no role in the
claims).  The pool (`TransactionPool`) is embedded as the snapshot its
`all_transactions()` call returns — per the spec a single atomic read-only
snapshot per call.
-/

/-- `BTreeMap::insert` over the association-list model. -/
def mapInsert {K V : Type} [DecidableEq K] (k : K) (v : V) :
    List (K × V) → List (K × V)
  | [] => [(k, v)]
  | (k', v') :: rest =>
      if k = k' then (k, v) :: rest else (k', v') :: mapInsert k v rest

/-- `BTreeMap::get` over the association-list model. -/
def mapLookup {K V : Type} [DecidableEq K] (k : K) :
    List (K × V) → Option V
  | [] => none
  | (k', v') :: rest => if k = k' then some v' else mapLookup k rest

/-- A transaction as this module sees it through the `PoolTransaction`
capability: a sender address, a nonce, and the rest of the recovered
transaction (`payload`). -/
structure PooledTx (A T : Type) : Type where
  sender : A
  nonce : Nat
  payload : T

/-- `AllPoolTransactions`: the snapshot of pending and queued transactions
returned by `all_transactions()`. -/
structure AllPoolTransactions (A T : Type) : Type where
  pending : List (PooledTx A T)
  queued : List (PooledTx A T)

/-- `TxpoolStatus` (txpool.rs line 82): counts of pending and queued
transactions.  The source casts the `usize` lengths to `u64`; on the
64-bit target this cast is exact, so the counts are plain naturals. -/
structure TxpoolStatus : Type where
  pending : Nat
  queued : Nat
deriving DecidableEq

/-- `TxpoolContent`: per-sender, per-nonce-string transaction objects for
the pending and the queued sub-pools. -/
structure TxpoolContent (A RpcTx : Type) : Type where
  pending : List (A × List (String × RpcTx))
  queued : List (A × List (String × RpcTx))

/-- `TxPoolApi` (txpool.rs lines 19-23).  `resp_builder` embeds the
composite `self.resp_builder.from_recovered(tx.to_recovered_transaction())`
used at txpool.rs line 50. -/
structure TxPoolApi (A T RpcTx : Type) : Type where
  pool : AllPoolTransactions A T
  resp_builder : PooledTx A T → RpcTx

/-- The local `insert` helper of `content` (txpool.rs lines 40-52):
`content.entry(tx.sender()).or_default().insert(tx.nonce().to_string(), ..)`. -/
def insertContent {A T RpcTx : Type} [DecidableEq A]
    (resp : PooledTx A T → RpcTx) (tx : PooledTx A T)
    (content : List (A × List (String × RpcTx))) :
    List (A × List (String × RpcTx)) :=
  let inner := (mapLookup tx.sender content).getD []
  mapInsert tx.sender (mapInsert (Nat.repr tx.nonce) (resp tx) inner) content

/-- `TxPoolApi::content` (txpool.rs lines 38-65): fold the insert helper
over the pending then over the queued transactions of the snapshot,
starting from the default (empty) content. -/
def TxPoolApi.content {A T RpcTx : Type} [DecidableEq A]
    (api : TxPoolApi A T RpcTx) : TxpoolContent A RpcTx :=
  let all := api.pool
  { pending := all.pending.foldl (fun acc tx => insertContent api.resp_builder tx acc) []
    queued := all.queued.foldl (fun acc tx => insertContent api.resp_builder tx acc) [] }

/-- `txpool_status` (txpool.rs lines 79-83): the lengths of the pending and
queued lists of one `all_transactions()` snapshot. -/
def TxPoolApi.txpool_status {A T RpcTx : Type} (api : TxPoolApi A T RpcTx) :
    TxpoolStatus :=
  { pending := api.pool.pending.length, queued := api.pool.queued.length }

/-- `txpool_content` (txpool.rs lines 141-144): returns `self.content()`. -/
def TxPoolApi.txpool_content {A T RpcTx : Type} [DecidableEq A]
    (api : TxPoolApi A T RpcTx) : TxpoolContent A RpcTx :=
  api.content

end TxPoolRpc

namespace StageDrop

/-!
Embedding of bin/reth/src/commands/stage/drop.rs.  The mdbx tables touched
by the command are modelled by their row counts (`clear` empties a table);
the `SyncStage` checkpoint table maps a stage id to an optional checkpoint
value (`put` with `Default::default()` writes the zero checkpoint).  The
`SyncStage` table of the source is keyed by `StageId::to_string`, which is
injective on the variants used here, so the embedding keys it by the stage
id itself.  `insert_genesis_header` and `insert_genesis_state` live in
`crate::init`, outside the sources under review; modelled from the spec
("re-inserts genesis-derived header/state rows") as abstract event
counters.  Database operations are embedded as total functions (their I/O
failure modes are outside the model).
-/

/-- The command-line stage identifier (`StageEnum`).  Its declaration lives
outside the sources under review; the variants are the ones drop.rs
matches on, plus `Headers` (named in its snapshot-segment match) and
`Finish`, standing for the identifiers outside the recognized set, all of
which take the default match arm. -/
inductive StageEnum : Type
  | Headers
  | Bodies
  | Senders
  | Execution
  | AccountHashing
  | StorageHashing
  | Hashing
  | Merkle
  | AccountHistory
  | StorageHistory
  | TotalDifficulty
  | TxLookup
  | Finish
deriving DecidableEq

/-- The mdbx tables drop.rs clears. -/
inductive Table : Type
  | BlockBodyIndices
  | Transactions
  | TransactionBlock
  | BlockOmmers
  | BlockWithdrawals
  | TxSenders
  | PlainAccountState
  | PlainStorageState
  | AccountChangeSet
  | StorageChangeSet
  | Bytecodes
  | Receipts
  | HashedAccount
  | HashedStorage
  | AccountsTrie
  | StoragesTrie
  | AccountHistory
  | StorageHistory
  | HeaderTD
  | TxHashNumber
deriving DecidableEq

/-- The sync-stage checkpoint keys (`reth_primitives::stage::StageId`)
drop.rs writes. -/
inductive StageId : Type
  | Bodies
  | SenderRecovery
  | Execution
  | AccountHashing
  | StorageHashing
  | MerkleExecute
  | MerkleUnwind
  | IndexAccountHistory
  | IndexStorageHistory
  | TotalDifficulty
  | TransactionLookup
  | Finish
deriving DecidableEq

/-- `SnapshotSegment`: the immutable historical segment kinds. -/
inductive SnapshotSegment : Type
  | Headers
  | Transactions
  | Receipts
deriving DecidableEq

/-- The database state visible to drop.rs: row counts per table, the
`SyncStage` and `SyncStageProgress` checkpoint maps, the genesis
re-insertion event counters, and the stored snapshot jars per segment
(identified by the start of their block range). -/
structure Db : Type where
  tables : Table → Nat
  syncStage : StageId → Option Nat
  syncStageProgress : StageId → Option Nat
  genesisHeaderInserts : Nat
  genesisStateInserts : Nat
  snapshots : SnapshotSegment → List Nat

/-- `tx.clear::<T>()`: empty the table. -/
def Db.clear (db : Db) (t : Table) : Db :=
  { db with tables := fun t' => if t' = t then 0 else db.tables t' }

/-- `tx.put::<tables::SyncStage>(id.to_string(), v)`. -/
def Db.putSyncStage (db : Db) (k : StageId) (v : Nat) : Db :=
  { db with syncStage := fun k' => if k' = k then some v else db.syncStage k' }

/-- `tx.delete::<tables::SyncStageProgress>(id.to_string(), None)`. -/
def Db.deleteSyncStageProgress (db : Db) (k : StageId) : Db :=
  { db with syncStageProgress := fun k' => if k' = k then none else db.syncStageProgress k' }

/-- Modelled from the spec: `insert_genesis_header` (crate::init, outside
the sources under review) re-inserts the genesis-derived header rows; the
embedding records the event. -/
def Db.insert_genesis_header (db : Db) : Db :=
  { db with genesisHeaderInserts := db.genesisHeaderInserts + 1 }

/-- Modelled from the spec: `insert_genesis_state` (crate::init, outside
the sources under review) re-inserts the genesis-derived state rows; the
embedding records the event. -/
def Db.insert_genesis_state (db : Db) : Db :=
  { db with genesisStateInserts := db.genesisStateInserts + 1 }

/-- The `match self.stage` of the database transaction closure (drop.rs
lines 70-177): `some` the updated database for a handled stage, `none` for
the default arm (which logs "Nothing to do" and returns early). -/
def dropStageMatch (stage : StageEnum) (db : Db) : Option Db :=
  match stage with
  | StageEnum.Bodies =>
      some ((((((db.clear Table.BlockBodyIndices).clear
        Table.Transactions).clear Table.TransactionBlock).clear
        Table.BlockOmmers).clear Table.BlockWithdrawals).putSyncStage
        StageId.Bodies 0).insert_genesis_header
  | StageEnum.Senders =>
      some ((db.clear Table.TxSenders).putSyncStage StageId.SenderRecovery 0)
  | StageEnum.Execution =>
      some (((((((db.clear Table.PlainAccountState).clear
        Table.PlainStorageState).clear Table.AccountChangeSet).clear
        Table.StorageChangeSet).clear Table.Bytecodes).clear
        Table.Receipts).putSyncStage StageId.Execution 0).insert_genesis_state
  | StageEnum.AccountHashing =>
      some ((db.clear Table.HashedAccount).putSyncStage StageId.AccountHashing 0)
  | StageEnum.StorageHashing =>
      some ((db.clear Table.HashedStorage).putSyncStage StageId.StorageHashing 0)
  | StageEnum.Hashing =>
      some ((((db.clear Table.HashedAccount).putSyncStage
        StageId.AccountHashing 0).clear Table.HashedStorage).putSyncStage
        StageId.StorageHashing 0)
  | StageEnum.Merkle =>
      some (((((db.clear Table.AccountsTrie).clear
        Table.StoragesTrie).putSyncStage StageId.MerkleExecute 0).putSyncStage
        StageId.MerkleUnwind 0).deleteSyncStageProgress StageId.MerkleExecute)
  | StageEnum.AccountHistory | StageEnum.StorageHistory =>
      some ((((db.clear Table.AccountHistory).clear
        Table.StorageHistory).putSyncStage StageId.IndexAccountHistory
        0).putSyncStage StageId.IndexStorageHistory 0)
  | StageEnum.TotalDifficulty =>
      some (((db.clear Table.HeaderTD).putSyncStage
        StageId.TotalDifficulty 0).insert_genesis_header)
  | StageEnum.TxLookup =>
      some (((db.clear Table.TxHashNumber).putSyncStage
        StageId.TransactionLookup 0).insert_genesis_header)
  | _ => none

/-- The whole database transaction closure (drop.rs lines 69-182): a
handled stage additionally gets the shared `Finish` checkpoint rewritten to
the default value (line 179); the default arm's early `return Ok(())`
skips that write.  The boolean records whether "Nothing to do" was
reported. -/
def dropStageTx (stage : StageEnum) (db : Db) : Db × Bool :=
  match dropStageMatch stage db with
  | some db1 => (db1.putSyncStage StageId.Finish 0, false)
  | none => (db, true)

/-- The snapshot-segment selection (drop.rs lines 184-189). -/
def snapshotSegmentOf : StageEnum → Option SnapshotSegment
  | StageEnum.Headers => some SnapshotSegment.Headers
  | StageEnum.Bodies => some SnapshotSegment.Transactions
  | StageEnum.Execution => some SnapshotSegment.Receipts
  | _ => none

/-- The snapshot deletion loop (drop.rs lines 191-200): every stored jar of
the selected segment is deleted. -/
def deleteSegmentJars (db : Db) (seg : SnapshotSegment) : Db :=
  { db with snapshots := fun s' => if s' = seg then [] else db.snapshots s' }

/-- `Command::execute` (drop.rs lines 55-203), omitting the filesystem and
database-handle setup: run the transaction closure, then delete the
snapshot jars of the segment associated with the stage, if any.  Returns
the command's result, the final database, and whether "Nothing to do" was
reported. -/
def Command.execute (stage : StageEnum) (db : Db) :
    Except Unit Unit × Db × Bool :=
  let r := dropStageTx stage db
  let db2 :=
    match snapshotSegmentOf stage with
    | some seg => deleteSegmentJars r.1 seg
    | none => r.1
  (Except.ok (), db2, r.2)

/-- The stage identifiers with a handling arm in the reset match (drop.rs
lines 70-177); every other identifier takes the default arm. -/
def recognizedStage : StageEnum → Bool
  | StageEnum.Bodies | StageEnum.Senders | StageEnum.Execution
  | StageEnum.AccountHashing | StageEnum.StorageHashing | StageEnum.Hashing
  | StageEnum.Merkle | StageEnum.AccountHistory | StageEnum.StorageHistory
  | StageEnum.TotalDifficulty | StageEnum.TxLookup => true
  | _ => false

end StageDrop

namespace NodeBuilderExt

variable {CoreCtx Core P E Rx R Err Handle : Type}

open StageExtComponentsBuild

section UnfoldingLemmas

variable (s : ExtComponentsBuildStage CoreCtx Core P E Rx R Err Handle)

theorem build_pipeline_of_none (h : s.pipeline_builder = none) :
    build_pipeline s = (none, s) := by
  unfold StageExtComponentsBuild.build_pipeline
  rw [h]

theorem build_pipeline_of_some
    (b : OnComponentsInitializedHook CoreCtx Core P E Rx R Err)
    (h : s.pipeline_builder = some b) :
    build_pipeline s =
      (some (b s.core_ctx s.components), { s with pipeline_builder := none }) := by
  unfold StageExtComponentsBuild.build_pipeline
  rw [h]

theorem build_engine_of_none (h : s.engine_builder = none) :
    build_engine s = (none, s) := by
  unfold StageExtComponentsBuild.build_engine
  rw [h]

theorem build_engine_of_some
    (b : OnComponentsInitializedHook CoreCtx Core P E Rx R Err)
    (h : s.engine_builder = some b) :
    build_engine s =
      (some (b s.core_ctx s.components), { s with engine_builder := none }) := by
  unfold StageExtComponentsBuild.build_engine
  rw [h]

theorem build_rpc_of_none (h : s.rpc_builder = none) :
    build_rpc s = (none, s) := by
  unfold StageExtComponentsBuild.build_rpc
  rw [h]

theorem build_rpc_of_some
    (b : OnComponentsInitializedHook CoreCtx Core P E Rx R Err)
    (h : s.rpc_builder = some b) :
    build_rpc s =
      (some (b s.core_ctx s.components), { s with rpc_builder := none }) := by
  unfold StageExtComponentsBuild.build_rpc
  rw [h]

theorem buildRpcStep_of_none (h : s.rpc_builder = none) :
    buildRpcStep s = (Except.ok s.components.core, s, []) := by
  unfold buildRpcStep
  rw [build_rpc_of_none s h]

theorem buildRpcStep_of_err
    (b : OnComponentsInitializedHook CoreCtx Core P E Rx R Err)
    (e : Err) (comps : WithComponentsExt Core P E Rx R)
    (h : s.rpc_builder = some b)
    (hr : b s.core_ctx s.components = (Except.error e, comps)) :
    buildRpcStep s =
      (Except.error e, { s with rpc_builder := none, components := comps },
        [BuildStageId.rpc]) := by
  unfold buildRpcStep
  rw [build_rpc_of_some s b h, hr]

theorem buildRpcStep_of_ok
    (b : OnComponentsInitializedHook CoreCtx Core P E Rx R Err)
    (u : Unit) (comps : WithComponentsExt Core P E Rx R)
    (h : s.rpc_builder = some b)
    (hr : b s.core_ctx s.components = (Except.ok u, comps)) :
    buildRpcStep s =
      (Except.ok comps.core, { s with rpc_builder := none, components := comps },
        [BuildStageId.rpc]) := by
  unfold buildRpcStep
  rw [build_rpc_of_some s b h, hr]

theorem buildEngineStep_of_none (h : s.engine_builder = none) :
    buildEngineStep s = buildRpcStep s := by
  unfold buildEngineStep
  rw [build_engine_of_none s h]

theorem buildEngineStep_of_err
    (b : OnComponentsInitializedHook CoreCtx Core P E Rx R Err)
    (e : Err) (comps : WithComponentsExt Core P E Rx R)
    (h : s.engine_builder = some b)
    (hr : b s.core_ctx s.components = (Except.error e, comps)) :
    buildEngineStep s =
      (Except.error e, { s with engine_builder := none, components := comps },
        [BuildStageId.engine]) := by
  unfold buildEngineStep
  rw [build_engine_of_some s b h, hr]

theorem buildEngineStep_of_ok
    (b : OnComponentsInitializedHook CoreCtx Core P E Rx R Err)
    (u : Unit) (comps : WithComponentsExt Core P E Rx R)
    (h : s.engine_builder = some b)
    (hr : b s.core_ctx s.components = (Except.ok u, comps)) :
    buildEngineStep s =
      (let r := buildRpcStep { s with engine_builder := none, components := comps }
       (r.1, r.2.1, BuildStageId.engine :: r.2.2)) := by
  unfold buildEngineStep
  rw [build_engine_of_some s b h, hr]

theorem build_of_pipeline_none (h : s.pipeline_builder = none) :
    NodeComponentsExtBuild.build s = buildEngineStep s := by
  unfold NodeComponentsExtBuild.build
  rw [build_pipeline_of_none s h]

theorem build_of_pipeline_err
    (b : OnComponentsInitializedHook CoreCtx Core P E Rx R Err)
    (e : Err) (comps : WithComponentsExt Core P E Rx R)
    (h : s.pipeline_builder = some b)
    (hr : b s.core_ctx s.components = (Except.error e, comps)) :
    NodeComponentsExtBuild.build s =
      (Except.error e, { s with pipeline_builder := none, components := comps },
        [BuildStageId.pipeline]) := by
  unfold NodeComponentsExtBuild.build
  rw [build_pipeline_of_some s b h, hr]

theorem build_of_pipeline_ok
    (b : OnComponentsInitializedHook CoreCtx Core P E Rx R Err)
    (u : Unit) (comps : WithComponentsExt Core P E Rx R)
    (h : s.pipeline_builder = some b)
    (hr : b s.core_ctx s.components = (Except.ok u, comps)) :
    NodeComponentsExtBuild.build s =
      (let r := buildEngineStep { s with pipeline_builder := none, components := comps }
       (r.1, r.2.1, BuildStageId.pipeline :: r.2.2)) := by
  unfold NodeComponentsExtBuild.build
  rw [build_pipeline_of_some s b h, hr]

end UnfoldingLemmas

section StepLemmas

variable (s : ExtComponentsBuildStage CoreCtx Core P E Rx R Err Handle)

/-- The rpc step's trace is the one-element trace exactly when an rpc hook
is registered, whether or not the hook succeeds. -/
theorem buildRpcStep_trace :
    (buildRpcStep s).2.2 =
      (if s.rpc_builder.isSome then [BuildStageId.rpc] else []) := by
  rcases hr : s.rpc_builder with _ | b
  · rw [buildRpcStep_of_none s hr]
    simp
  · rcases hb : b s.core_ctx s.components with ⟨res, comps⟩
    cases res with
    | error e =>
        rw [buildRpcStep_of_err s b e comps hr hb]
        simp
    | ok u =>
        rw [buildRpcStep_of_ok s b u comps hr hb]
        simp

/-- The engine-then-rpc trace is a prefix of the registered tail
`[engine?, rpc?]`. -/
theorem buildEngineStep_trace_extends :
    ∃ u, (buildEngineStep s).2.2 ++ u =
      (if s.engine_builder.isSome then [BuildStageId.engine] else []) ++
      (if s.rpc_builder.isSome then [BuildStageId.rpc] else []) := by
  rcases he : s.engine_builder with _ | b
  · rw [buildEngineStep_of_none s he]
    refine ⟨[], ?_⟩
    rw [buildRpcStep_trace s]
    simp
  · rcases hb : b s.core_ctx s.components with ⟨res, comps⟩
    cases res with
    | error e =>
        rw [buildEngineStep_of_err s b e comps he hb]
        exact ⟨if s.rpc_builder.isSome then [BuildStageId.rpc] else [], by simp⟩
    | ok u =>
        rw [buildEngineStep_of_ok s b u comps he hb]
        refine ⟨[], ?_⟩
        simp only []
        rw [buildRpcStep_trace { s with engine_builder := none, components := comps }]
        simp

/-- On a successful engine-then-rpc run, the trace is exactly the
registered tail. -/
theorem buildEngineStep_trace_of_ok
    (h : (buildEngineStep s).1.isOk = true) :
    (buildEngineStep s).2.2 =
      (if s.engine_builder.isSome then [BuildStageId.engine] else []) ++
      (if s.rpc_builder.isSome then [BuildStageId.rpc] else []) := by
  rcases he : s.engine_builder with _ | b
  · rw [buildEngineStep_of_none s he, buildRpcStep_trace s]
    simp
  · rcases hb : b s.core_ctx s.components with ⟨res, comps⟩
    cases res with
    | error e =>
        rw [buildEngineStep_of_err s b e comps he hb] at h
        simp [Except.isOk, Except.toBool] at h
    | ok u =>
        rw [buildEngineStep_of_ok s b u comps he hb]
        simp only []
        rw [buildRpcStep_trace { s with engine_builder := none, components := comps }]
        simp

end StepLemmas

section ClaimC1

variable (s : ExtComponentsBuildStage CoreCtx Core P E Rx R Err Handle)

/-- Claim C1: however the pipeline/engine/rpc hooks were registered (any
subset, in any order — the stage `s` is arbitrary), running the build
invokes the registered hooks in exactly the fixed order pipeline, engine,
rpc: the invocation trace is a prefix of the registered-stage list in that
fixed order (it stops early only at a failing hook), and when the build
succeeds it is exactly that list; stages with no registered hook are
skipped. -/
theorem build_invokes_hooks_in_fixed_order :
    (∃ u, (NodeComponentsExtBuild.build s).2.2 ++ u = registeredStages s) ∧
    ((NodeComponentsExtBuild.build s).1.isOk = true →
      (NodeComponentsExtBuild.build s).2.2 = registeredStages s) := by
  rcases hp : s.pipeline_builder with _ | b
  · rw [build_of_pipeline_none s hp]
    have hreg : registeredStages s =
        (if s.engine_builder.isSome then [BuildStageId.engine] else []) ++
        (if s.rpc_builder.isSome then [BuildStageId.rpc] else []) := by
      unfold registeredStages
      rw [hp]
      simp
    rw [hreg]
    exact ⟨buildEngineStep_trace_extends s, buildEngineStep_trace_of_ok s⟩
  · rcases hb : b s.core_ctx s.components with ⟨res, comps⟩
    have hreg : registeredStages s =
        BuildStageId.pipeline ::
          ((if s.engine_builder.isSome then [BuildStageId.engine] else []) ++
           (if s.rpc_builder.isSome then [BuildStageId.rpc] else [])) := by
      unfold registeredStages
      rw [hp]
      simp
    cases res with
    | error e =>
        rw [build_of_pipeline_err s b e comps hp hb, hreg]
        constructor
        · exact ⟨_, rfl⟩
        · intro h
          simp [Except.isOk, Except.toBool] at h
    | ok u =>
        rw [build_of_pipeline_ok s b u comps hp hb, hreg]
        simp only []
        constructor
        · obtain ⟨u', hu'⟩ :=
            buildEngineStep_trace_extends
              { s with pipeline_builder := none, components := comps }
          exact ⟨u', by rw [List.cons_append, hu']⟩
        · intro h
          rw [buildEngineStep_trace_of_ok
            { s with pipeline_builder := none, components := comps } h]

/-- Witness for C1 at a concrete stage with all three hooks registered and
succeeding; the build's trace is exactly `[pipeline, engine, rpc]`. -/
theorem build_invokes_hooks_in_fixed_order_witness :
    ((∃ u, (NodeComponentsExtBuild.build
      (ExtComponentsBuildStage.mk () (WithComponentsExt.new 0)
        (some fun _ c => (Except.ok (), { c with pipeline := some 1 }))
        (some fun _ c => (Except.ok (), { c with engine := some ⟨2, 0⟩ }))
        (some fun _ c => (Except.ok (), { c with rpc := some 3 }))
        ([] : List (OnRpcStarted Unit Nat)) :
        ExtComponentsBuildStage Unit Nat Nat Nat Nat Nat Nat Unit)).2.2 ++ u =
      registeredStages
        (ExtComponentsBuildStage.mk () (WithComponentsExt.new 0)
          (some fun _ c => (Except.ok (), { c with pipeline := some 1 }))
          (some fun _ c => (Except.ok (), { c with engine := some ⟨2, 0⟩ }))
          (some fun _ c => (Except.ok (), { c with rpc := some 3 }))
          ([] : List (OnRpcStarted Unit Nat)))) ∧
    ((NodeComponentsExtBuild.build
      (ExtComponentsBuildStage.mk () (WithComponentsExt.new 0)
        (some fun _ c => (Except.ok (), { c with pipeline := some 1 }))
        (some fun _ c => (Except.ok (), { c with engine := some ⟨2, 0⟩ }))
        (some fun _ c => (Except.ok (), { c with rpc := some 3 }))
        ([] : List (OnRpcStarted Unit Nat)) :
        ExtComponentsBuildStage Unit Nat Nat Nat Nat Nat Nat Unit)).1.isOk = true →
      (NodeComponentsExtBuild.build
        (ExtComponentsBuildStage.mk () (WithComponentsExt.new 0)
          (some fun _ c => (Except.ok (), { c with pipeline := some 1 }))
          (some fun _ c => (Except.ok (), { c with engine := some ⟨2, 0⟩ }))
          (some fun _ c => (Except.ok (), { c with rpc := some 3 }))
          ([] : List (OnRpcStarted Unit Nat)) :
          ExtComponentsBuildStage Unit Nat Nat Nat Nat Nat Nat Unit)).2.2 =
      registeredStages
        (ExtComponentsBuildStage.mk () (WithComponentsExt.new 0)
          (some fun _ c => (Except.ok (), { c with pipeline := some 1 }))
          (some fun _ c => (Except.ok (), { c with engine := some ⟨2, 0⟩ }))
          (some fun _ c => (Except.ok (), { c with rpc := some 3 }))
          ([] : List (OnRpcStarted Unit Nat))))) ∧
    (NodeComponentsExtBuild.build
      (ExtComponentsBuildStage.mk () (WithComponentsExt.new 0)
        (some fun _ c => (Except.ok (), { c with pipeline := some 1 }))
        (some fun _ c => (Except.ok (), { c with engine := some ⟨2, 0⟩ }))
        (some fun _ c => (Except.ok (), { c with rpc := some 3 }))
        ([] : List (OnRpcStarted Unit Nat)) :
        ExtComponentsBuildStage Unit Nat Nat Nat Nat Nat Nat Unit)).2.2 =
      [BuildStageId.pipeline, BuildStageId.engine, BuildStageId.rpc] :=
  ⟨build_invokes_hooks_in_fixed_order _, rfl⟩

end ClaimC1

section StateLemmas

variable (s : ExtComponentsBuildStage CoreCtx Core P E Rx R Err Handle)

/-- After the rpc step, the rpc hook slot is empty; the other hook slots
and the post-start hook list are untouched. -/
theorem buildRpcStep_state :
    (buildRpcStep s).2.1.pipeline_builder = s.pipeline_builder ∧
    (buildRpcStep s).2.1.engine_builder = s.engine_builder ∧
    (buildRpcStep s).2.1.rpc_builder = none ∧
    (buildRpcStep s).2.1.rpc_add_ons = s.rpc_add_ons := by
  rcases hr : s.rpc_builder with _ | b
  · rw [buildRpcStep_of_none s hr]
    exact ⟨rfl, rfl, hr, rfl⟩
  · rcases hb : b s.core_ctx s.components with ⟨res, comps⟩
    cases res with
    | error e =>
        rw [buildRpcStep_of_err s b e comps hr hb]
        exact ⟨rfl, rfl, rfl, rfl⟩
    | ok u =>
        rw [buildRpcStep_of_ok s b u comps hr hb]
        exact ⟨rfl, rfl, rfl, rfl⟩

/-- After the engine-then-rpc steps, the engine hook slot is empty, the
pipeline slot and the post-start hooks are untouched, and on success the
rpc slot is empty as well. -/
theorem buildEngineStep_state :
    (buildEngineStep s).2.1.pipeline_builder = s.pipeline_builder ∧
    (buildEngineStep s).2.1.engine_builder = none ∧
    (buildEngineStep s).2.1.rpc_add_ons = s.rpc_add_ons ∧
    ((buildEngineStep s).1.isOk = true →
      (buildEngineStep s).2.1.rpc_builder = none) := by
  rcases he : s.engine_builder with _ | b
  · rw [buildEngineStep_of_none s he]
    obtain ⟨h1, h2, h3, h4⟩ := buildRpcStep_state s
    exact ⟨h1, by rw [h2, he], h4, fun _ => h3⟩
  · rcases hb : b s.core_ctx s.components with ⟨res, comps⟩
    cases res with
    | error e =>
        rw [buildEngineStep_of_err s b e comps he hb]
        refine ⟨rfl, rfl, rfl, ?_⟩
        intro h
        simp [Except.isOk, Except.toBool] at h
    | ok u =>
        rw [buildEngineStep_of_ok s b u comps he hb]
        simp only []
        obtain ⟨h1, h2, h3, h4⟩ :=
          buildRpcStep_state { s with engine_builder := none, components := comps }
        exact ⟨h1, h2, h4, fun _ => h3⟩

/-- After the build, the pipeline hook slot is empty, the post-start hooks
are untouched, and on success every primary hook slot is empty. -/
theorem build_state :
    (NodeComponentsExtBuild.build s).2.1.pipeline_builder = none ∧
    (NodeComponentsExtBuild.build s).2.1.rpc_add_ons = s.rpc_add_ons ∧
    ((NodeComponentsExtBuild.build s).1.isOk = true →
      (NodeComponentsExtBuild.build s).2.1.engine_builder = none ∧
      (NodeComponentsExtBuild.build s).2.1.rpc_builder = none) := by
  rcases hp : s.pipeline_builder with _ | b
  · rw [build_of_pipeline_none s hp]
    obtain ⟨h1, h2, h3, h4⟩ := buildEngineStep_state s
    exact ⟨by rw [h1, hp], h3, fun hk => ⟨h2, h4 hk⟩⟩
  · rcases hb : b s.core_ctx s.components with ⟨res, comps⟩
    cases res with
    | error e =>
        rw [build_of_pipeline_err s b e comps hp hb]
        refine ⟨rfl, rfl, ?_⟩
        intro h
        simp [Except.isOk, Except.toBool] at h
    | ok u =>
        rw [build_of_pipeline_ok s b u comps hp hb]
        simp only []
        obtain ⟨h1, h2, h3, h4⟩ :=
          buildEngineStep_state { s with pipeline_builder := none, components := comps }
        exact ⟨h1, h3, fun hk => ⟨h2, h4 hk⟩⟩

/-- With no hook registered at all, the build succeeds immediately without
invoking anything and returns the core node handle. -/
theorem build_of_no_hooks (h1 : s.pipeline_builder = none)
    (h2 : s.engine_builder = none) (h3 : s.rpc_builder = none) :
    NodeComponentsExtBuild.build s = (Except.ok s.components.core, s, []) := by
  rw [build_of_pipeline_none s h1, buildEngineStep_of_none s h2,
    buildRpcStep_of_none s h3]

end StateLemmas

section ClaimC2

variable (s : ExtComponentsBuildStage CoreCtx Core P E Rx R Err Handle)

/-- Claim C2: each primary hook is consumed on first use — after any call
to `build_pipeline`/`build_engine`/`build_rpc` the corresponding slot is
empty and every later call returns the no-hook outcome `none` — and a
second run of the whole build after a successful one invokes no hook at all
(its trace is empty) while still succeeding. -/
theorem hooks_execute_at_most_once :
    ((build_pipeline s).2.pipeline_builder = none ∧
      (build_pipeline (build_pipeline s).2).1 = none) ∧
    ((build_engine s).2.engine_builder = none ∧
      (build_engine (build_engine s).2).1 = none) ∧
    ((build_rpc s).2.rpc_builder = none ∧
      (build_rpc (build_rpc s).2).1 = none) ∧
    ((NodeComponentsExtBuild.build s).1.isOk = true →
      (NodeComponentsExtBuild.build
        ((NodeComponentsExtBuild.build s).2.1)).2.2 = [] ∧
      (NodeComponentsExtBuild.build
        ((NodeComponentsExtBuild.build s).2.1)).1.isOk = true) := by
  have hpipe : (build_pipeline s).2.pipeline_builder = none := by
    rcases hp : s.pipeline_builder with _ | b
    · rw [build_pipeline_of_none s hp]
      exact hp
    · rw [build_pipeline_of_some s b hp]
  have heng : (build_engine s).2.engine_builder = none := by
    rcases hp : s.engine_builder with _ | b
    · rw [build_engine_of_none s hp]
      exact hp
    · rw [build_engine_of_some s b hp]
  have hrpc : (build_rpc s).2.rpc_builder = none := by
    rcases hp : s.rpc_builder with _ | b
    · rw [build_rpc_of_none s hp]
      exact hp
    · rw [build_rpc_of_some s b hp]
  refine ⟨⟨hpipe, ?_⟩, ⟨heng, ?_⟩, ⟨hrpc, ?_⟩, ?_⟩
  · rw [build_pipeline_of_none _ hpipe]
  · rw [build_engine_of_none _ heng]
  · rw [build_rpc_of_none _ hrpc]
  · intro h
    obtain ⟨h1, _, h34⟩ := build_state s
    obtain ⟨h2, h3⟩ := h34 h
    rw [build_of_no_hooks _ h1 h2 h3]
    exact ⟨rfl, rfl⟩

/-- Witness for C2 at a concrete stage: one registered hook per slot, all
succeeding. -/
theorem hooks_execute_at_most_once_witness :
    (let s : ExtComponentsBuildStage Unit Nat Nat Nat Nat Nat Nat Unit :=
      { core_ctx := ()
        components := WithComponentsExt.new 0
        pipeline_builder := some fun _ c => (Except.ok (), { c with pipeline := some 1 })
        engine_builder := some fun _ c =>
          (Except.ok (), { c with engine := some ⟨2, 0⟩ })
        rpc_builder := some fun _ c => (Except.ok (), { c with rpc := some 3 })
        rpc_add_ons := [] }
    ((build_pipeline s).2.pipeline_builder = none ∧
      (build_pipeline (build_pipeline s).2).1 = none) ∧
    ((build_engine s).2.engine_builder = none ∧
      (build_engine (build_engine s).2).1 = none) ∧
    ((build_rpc s).2.rpc_builder = none ∧
      (build_rpc (build_rpc s).2).1 = none) ∧
    ((NodeComponentsExtBuild.build s).1.isOk = true →
      (NodeComponentsExtBuild.build
        ((NodeComponentsExtBuild.build s).2.1)).2.2 = [] ∧
      (NodeComponentsExtBuild.build
        ((NodeComponentsExtBuild.build s).2.1)).1.isOk = true)) ∧
    (NodeComponentsExtBuild.build
      (ExtComponentsBuildStage.mk () (WithComponentsExt.new 0)
        (some fun _ c => (Except.ok (), { c with pipeline := some 1 }))
        (some fun _ c => (Except.ok (), { c with engine := some ⟨2, 0⟩ }))
        (some fun _ c => (Except.ok (), { c with rpc := some 3 }))
        ([] : List (OnRpcStarted Unit Nat)))).1.isOk = true :=
  ⟨hooks_execute_at_most_once _, rfl⟩

end ClaimC2

section ClaimC3

variable (s : ExtComponentsBuildStage CoreCtx Core P E Rx R Err Handle)

/-- Claim C3, counterexample to the "the reported failure identifies the
pipeline stage" part: the driver propagates the hook's error verbatim
(`builder.await?`) and adds no stage annotation.  Two builds, one whose
pipeline hook fails with error `7` and one with no pipeline hook whose
engine hook fails with the same error, return the very same failure value,
so the reported failure does not identify the failing stage. -/
theorem pipeline_failure_not_stage_identified :
    (NodeComponentsExtBuild.build
      (ExtComponentsBuildStage.mk () (WithComponentsExt.new 0)
        (some fun _ c => (Except.error 7, c))
        (some fun _ c => (Except.ok (), { c with engine := some ⟨2, 0⟩ }))
        none ([] : List (OnRpcStarted Unit Nat)) :
        ExtComponentsBuildStage Unit Nat Nat Nat Nat Nat Nat Unit)).1 =
      Except.error 7 ∧
    (NodeComponentsExtBuild.build
      (ExtComponentsBuildStage.mk () (WithComponentsExt.new 0)
        none
        (some fun _ c => (Except.error 7, c))
        none ([] : List (OnRpcStarted Unit Nat)) :
        ExtComponentsBuildStage Unit Nat Nat Nat Nat Nat Nat Unit)).1 =
      Except.error 7 ∧
    (NodeComponentsExtBuild.build
      (ExtComponentsBuildStage.mk () (WithComponentsExt.new 0)
        (some fun _ c => (Except.error 7, c))
        (some fun _ c => (Except.ok (), { c with engine := some ⟨2, 0⟩ }))
        none ([] : List (OnRpcStarted Unit Nat)) :
        ExtComponentsBuildStage Unit Nat Nat Nat Nat Nat Nat Unit)).1 =
    (NodeComponentsExtBuild.build
      (ExtComponentsBuildStage.mk () (WithComponentsExt.new 0)
        none
        (some fun _ c => (Except.error 7, c))
        none ([] : List (OnRpcStarted Unit Nat)) :
        ExtComponentsBuildStage Unit Nat Nat Nat Nat Nat Nat Unit)).1 :=
  ⟨rfl, rfl, rfl⟩

/-- Claim C3 as amended: if the pipeline hook's invocation fails, the build
returns exactly that failure (unchanged, with no stage annotation added),
the invocation trace is only the pipeline stage — so neither the engine
hook nor the rpc hook is ever invoked — and both the engine and the rpc
hook remain registered and unconsumed in the final stage state. -/
theorem pipeline_failure_aborts_build
    (b : OnComponentsInitializedHook CoreCtx Core P E Rx R Err)
    (e : Err) (comps : WithComponentsExt Core P E Rx R)
    (hp : s.pipeline_builder = some b)
    (hr : b s.core_ctx s.components = (Except.error e, comps)) :
    NodeComponentsExtBuild.build s =
      (Except.error e, { s with pipeline_builder := none, components := comps },
        [BuildStageId.pipeline]) ∧
    (NodeComponentsExtBuild.build s).2.1.engine_builder = s.engine_builder ∧
    (NodeComponentsExtBuild.build s).2.1.rpc_builder = s.rpc_builder := by
  have h := build_of_pipeline_err s b e comps hp hr
  rw [h]
  exact ⟨rfl, rfl, rfl⟩

/-- Witness for C3 (amended) at a concrete stage whose pipeline hook fails
with error `9` while engine and rpc hooks are registered. -/
theorem pipeline_failure_aborts_build_witness :
    NodeComponentsExtBuild.build
      (ExtComponentsBuildStage.mk () (WithComponentsExt.new 0)
        (some fun _ c => (Except.error 9, c))
        (some fun _ c => (Except.ok (), { c with engine := some ⟨2, 0⟩ }))
        (some fun _ c => (Except.ok (), { c with rpc := some 3 }))
        ([] : List (OnRpcStarted Unit Nat)) :
        ExtComponentsBuildStage Unit Nat Nat Nat Nat Nat Nat Unit) =
      (Except.error 9,
        { ExtComponentsBuildStage.mk () (WithComponentsExt.new 0)
            (some fun _ c => (Except.error 9, c))
            (some fun _ c => (Except.ok (), { c with engine := some ⟨2, 0⟩ }))
            (some fun _ c => (Except.ok (), { c with rpc := some 3 }))
            ([] : List (OnRpcStarted Unit Nat)) with
          pipeline_builder := none, components := WithComponentsExt.new 0 },
        [BuildStageId.pipeline]) ∧
    (NodeComponentsExtBuild.build
      (ExtComponentsBuildStage.mk () (WithComponentsExt.new 0)
        (some fun _ c => (Except.error 9, c))
        (some fun _ c => (Except.ok (), { c with engine := some ⟨2, 0⟩ }))
        (some fun _ c => (Except.ok (), { c with rpc := some 3 }))
        ([] : List (OnRpcStarted Unit Nat)) :
        ExtComponentsBuildStage Unit Nat Nat Nat Nat Nat Nat Unit)).2.1.engine_builder =
      some (fun _ c => (Except.ok (), { c with engine := some ⟨2, 0⟩ })) ∧
    (NodeComponentsExtBuild.build
      (ExtComponentsBuildStage.mk () (WithComponentsExt.new 0)
        (some fun _ c => (Except.error 9, c))
        (some fun _ c => (Except.ok (), { c with engine := some ⟨2, 0⟩ }))
        (some fun _ c => (Except.ok (), { c with rpc := some 3 }))
        ([] : List (OnRpcStarted Unit Nat)) :
        ExtComponentsBuildStage Unit Nat Nat Nat Nat Nat Nat Unit)).2.1.rpc_builder =
      some (fun _ c => (Except.ok (), { c with rpc := some 3 })) :=
  pipeline_failure_aborts_build _ _ 9 (WithComponentsExt.new 0) rfl rfl

end ClaimC3

section ClaimC4

variable (s : ExtComponentsBuildStage CoreCtx Core P E Rx R Err Handle)

/-- Claim C4: with no pipeline, engine, or rpc hook registered, the build
succeeds immediately (returning the core node handle, invoking nothing)
and the container keeps every extension slot empty, exactly as constructed
by `WithComponentsExt::new`. -/
theorem build_without_hooks_succeeds (core : Core)
    (h1 : s.pipeline_builder = none) (h2 : s.engine_builder = none)
    (h3 : s.rpc_builder = none) (hc : s.components = WithComponentsExt.new core) :
    NodeComponentsExtBuild.build s = (Except.ok core, s, []) ∧
    (NodeComponentsExtBuild.build s).2.1.components.pipeline = none ∧
    (NodeComponentsExtBuild.build s).2.1.components.engine = none ∧
    (NodeComponentsExtBuild.build s).2.1.components.engine_shutdown_rx = none ∧
    (NodeComponentsExtBuild.build s).2.1.components.rpc = none := by
  have h := build_of_no_hooks s h1 h2 h3
  rw [h, hc]
  exact ⟨rfl, rfl, rfl, rfl, rfl⟩

/-- Witness for C4 at a freshly constructed stage over the container
`WithComponentsExt.new 5`. -/
theorem build_without_hooks_succeeds_witness :
    NodeComponentsExtBuild.build
      (ExtComponentsBuildStage.new () (WithComponentsExt.new 5) :
        ExtComponentsBuildStage Unit Nat Nat Nat Nat Nat Nat Unit) =
      (Except.ok 5, ExtComponentsBuildStage.new () (WithComponentsExt.new 5), []) ∧
    (NodeComponentsExtBuild.build
      (ExtComponentsBuildStage.new () (WithComponentsExt.new 5) :
        ExtComponentsBuildStage Unit Nat Nat Nat Nat Nat Nat Unit)).2.1.components.pipeline = none ∧
    (NodeComponentsExtBuild.build
      (ExtComponentsBuildStage.new () (WithComponentsExt.new 5) :
        ExtComponentsBuildStage Unit Nat Nat Nat Nat Nat Nat Unit)).2.1.components.engine = none ∧
    (NodeComponentsExtBuild.build
      (ExtComponentsBuildStage.new () (WithComponentsExt.new 5) :
        ExtComponentsBuildStage Unit Nat Nat Nat Nat Nat Nat Unit)).2.1.components.engine_shutdown_rx = none ∧
    (NodeComponentsExtBuild.build
      (ExtComponentsBuildStage.new () (WithComponentsExt.new 5) :
        ExtComponentsBuildStage Unit Nat Nat Nat Nat Nat Nat Unit)).2.1.components.rpc = none :=
  build_without_hooks_succeeds _ 5 rfl rfl rfl rfl

end ClaimC4

section ClaimC5

variable (s : ExtComponentsBuildStage CoreCtx Core P E Rx R Err Handle)

/-- Claim C5: the engine-shutdown-signal receiver is handed off at most
once.  When the container holds an engine component, the first call to
`engine_shutdown_rx` yields that component's stored receiver, taken by
value; afterwards the stored placeholder reads as the default value, so a
second call yields only the default value. -/
theorem engine_shutdown_rx_taken_once [Inhabited Rx]
    (eng : EngineComponent E Rx) (h : s.components.engine = some eng) :
    (engine_shutdown_rx s).1 = eng.shutdown_rx ∧
    (engine_shutdown_rx s).2.components.engine =
      some { eng with shutdown_rx := (default : Rx) } ∧
    (engine_shutdown_rx (engine_shutdown_rx s).2).1 = (default : Rx) := by
  unfold StageExtComponentsBuild.engine_shutdown_rx
  rw [h]
  exact ⟨rfl, rfl, rfl⟩

/-- Witness for C5 on a container whose engine component stores the
receiver `42` (with default `0`). -/
theorem engine_shutdown_rx_taken_once_witness :
    (engine_shutdown_rx
      (ExtComponentsBuildStage.mk () ⟨0, none, some ⟨2, 42⟩, none, none⟩
        none none none ([] : List (OnRpcStarted Unit Nat)) :
        ExtComponentsBuildStage Unit Nat Nat Nat Nat Nat Nat Unit)).1 = 42 ∧
    (engine_shutdown_rx
      (ExtComponentsBuildStage.mk () ⟨0, none, some ⟨2, 42⟩, none, none⟩
        none none none ([] : List (OnRpcStarted Unit Nat)) :
        ExtComponentsBuildStage Unit Nat Nat Nat Nat Nat Nat Unit)).2.components.engine =
      some ⟨2, 0⟩ ∧
    (engine_shutdown_rx (engine_shutdown_rx
      (ExtComponentsBuildStage.mk () ⟨0, none, some ⟨2, 42⟩, none, none⟩
        none none none ([] : List (OnRpcStarted Unit Nat)) :
        ExtComponentsBuildStage Unit Nat Nat Nat Nat Nat Nat Unit)).2).1 = 0 :=
  engine_shutdown_rx_taken_once _ ⟨2, 42⟩ rfl

end ClaimC5

section ClaimC10

variable (s : ExtComponentsBuildStage CoreCtx Core P E Rx R Err Handle)

/-- Claim C10: registering a pipeline/engine/rpc hook a second time before
the build runs replaces the earlier hook: the slot holds only the most
recent hook, and the doubly-registered stage is the very same stage as one
on which only the second hook was ever registered — hence any build run on
it invokes only the second hook and never the first — while registering
post-start hooks accumulates them in order. -/
theorem reregistration_replaces_hook
    (b1 b2 : OnComponentsInitializedHook CoreCtx Core P E Rx R Err)
    (p1 p2 : OnRpcStarted Handle Err) :
    pipeline_builder (pipeline_builder s b1) b2 = pipeline_builder s b2 ∧
    (pipeline_builder s b2).pipeline_builder = some b2 ∧
    engine_builder (engine_builder s b1) b2 = engine_builder s b2 ∧
    (engine_builder s b2).engine_builder = some b2 ∧
    rpc_builder (rpc_builder s b1) b2 = rpc_builder s b2 ∧
    (rpc_builder s b2).rpc_builder = some b2 ∧
    (on_rpc_started (on_rpc_started s p1) p2).rpc_add_ons =
      s.rpc_add_ons ++ [p1, p2] := by
  refine ⟨rfl, rfl, rfl, rfl, rfl, rfl, ?_⟩
  show (s.rpc_add_ons ++ [p1]) ++ [p2] = s.rpc_add_ons ++ [p1, p2]
  simp

end ClaimC10

section ClaimC6

variable (s : ExtComponentsBuildStage CoreCtx Core P E Rx R Err Handle)

/-- Claim C6 (the post-start runner is modelled from the spec, as only its
registration surface is among the sources): post-start hooks accumulate in
registration order, the build leaves the registered list untouched, and
once the rpc stage succeeds (the build returns success) the post-start
phase runs every registered hook, in registration order, each producing its
own result — so a failure of one hook never prevents the remaining ones
from running. -/
theorem post_start_hooks_all_run (hdl : Handle)
    (h : (NodeComponentsExtBuild.build s).1.isOk = true) :
    (∀ hook, (on_rpc_started s hook).rpc_add_ons = s.rpc_add_ons ++ [hook]) ∧
    (NodeComponentsExtBuild.build s).2.1.rpc_add_ons = s.rpc_add_ons ∧
    (buildAndRunPostStartHooks s hdl).2 = s.rpc_add_ons.map fun f => f hdl := by
  obtain ⟨_, hpres, _⟩ := build_state s
  refine ⟨fun hook => rfl, hpres, ?_⟩
  unfold buildAndRunPostStartHooks
  rcases hres : NodeComponentsExtBuild.build s with ⟨res, s1, tr⟩
  have hpres' : s1.rpc_add_ons = s.rpc_add_ons := by
    rw [hres] at hpres
    exact hpres
  cases res with
  | error e =>
      rw [hres] at h
      simp [Except.isOk, Except.toBool] at h
  | ok v =>
      show runPostStartHooks s1.rpc_add_ons hdl = List.map (fun f => f hdl) s.rpc_add_ons
      rw [hpres']
      rfl

/-- Witness for C6: a build with no primary hooks (hence successful) and
two registered post-start hooks, the first of which fails; both run and
both results are collected. -/
theorem post_start_hooks_all_run_witness :
    ((∀ hook, (on_rpc_started
        (ExtComponentsBuildStage.mk () (WithComponentsExt.new 0) none none none
          ([fun _ => Except.error 5, fun _ => Except.ok ()] : List (OnRpcStarted Unit Nat)) :
          ExtComponentsBuildStage Unit Nat Nat Nat Nat Nat Nat Unit) hook).rpc_add_ons =
      ([fun _ => Except.error 5, fun _ => Except.ok ()] : List (OnRpcStarted Unit Nat)) ++ [hook]) ∧
    (NodeComponentsExtBuild.build
      (ExtComponentsBuildStage.mk () (WithComponentsExt.new 0) none none none
        ([fun _ => Except.error 5, fun _ => Except.ok ()] : List (OnRpcStarted Unit Nat)) :
        ExtComponentsBuildStage Unit Nat Nat Nat Nat Nat Nat Unit)).2.1.rpc_add_ons =
      ([fun _ => Except.error 5, fun _ => Except.ok ()] : List (OnRpcStarted Unit Nat)) ∧
    (buildAndRunPostStartHooks
      (ExtComponentsBuildStage.mk () (WithComponentsExt.new 0) none none none
        ([fun _ => Except.error 5, fun _ => Except.ok ()] : List (OnRpcStarted Unit Nat)) :
        ExtComponentsBuildStage Unit Nat Nat Nat Nat Nat Nat Unit) ()).2 =
      List.map (fun f => f ())
        ([fun _ => Except.error 5, fun _ => Except.ok ()] : List (OnRpcStarted Unit Nat))) ∧
    (buildAndRunPostStartHooks
      (ExtComponentsBuildStage.mk () (WithComponentsExt.new 0) none none none
        ([fun _ => Except.error 5, fun _ => Except.ok ()] : List (OnRpcStarted Unit Nat)) :
        ExtComponentsBuildStage Unit Nat Nat Nat Nat Nat Nat Unit) ()).2 =
      [Except.error 5, Except.ok ()] :=
  ⟨post_start_hooks_all_run _ () rfl, rfl⟩

end ClaimC6

end NodeBuilderExt

namespace TxPoolRpc

/-- Claim C7: for a pool whose `all_transactions()` snapshot holds exactly
one pending transaction (sender `S`, nonce `0`) and no queued transactions,
`txpool_status` reports pending = 1 and queued = 0, and `txpool_content`
returns the transaction nested under outer key `S` and inner key the
string `"0"`, with an empty queued map. -/
theorem singleton_pending_pool_status_and_content
    {A T RpcTx : Type} [DecidableEq A] (S : A) (t : T)
    (resp : PooledTx A T → RpcTx) :
    TxPoolApi.txpool_status ⟨⟨[⟨S, 0, t⟩], []⟩, resp⟩ = ⟨1, 0⟩ ∧
    TxPoolApi.txpool_content ⟨⟨[⟨S, 0, t⟩], []⟩, resp⟩ =
      ⟨[(S, [("0", resp ⟨S, 0, t⟩)])], []⟩ := by
  constructor
  · rfl
  · show TxpoolContent.mk
      (mapInsert S (mapInsert (Nat.repr 0) (resp ⟨S, 0, t⟩) []) []) [] = _
    rfl

end TxPoolRpc

namespace StageDrop

/-- Claim C8: invoking the reset command with a stage identifier outside
the recognized set clears no database table, writes no sync-stage
checkpoint (the shared `Finish` checkpoint included, since the default
arm's early return skips that write), deletes no sync-stage progress
entry, inserts no genesis-derived row, reports "nothing to do", and
returns success. -/
theorem unrecognized_stage_resets_nothing (st : StageEnum) (db : Db)
    (h : recognizedStage st = false) :
    (Command.execute st db).1 = Except.ok () ∧
    (Command.execute st db).2.2 = true ∧
    (∀ t, (Command.execute st db).2.1.tables t = db.tables t) ∧
    (∀ k, (Command.execute st db).2.1.syncStage k = db.syncStage k) ∧
    (∀ k, (Command.execute st db).2.1.syncStageProgress k = db.syncStageProgress k) ∧
    (Command.execute st db).2.1.genesisHeaderInserts = db.genesisHeaderInserts ∧
    (Command.execute st db).2.1.genesisStateInserts = db.genesisStateInserts := by
  cases st
  case Headers =>
    exact ⟨rfl, rfl, fun t => rfl, fun k => rfl, fun k => rfl, rfl, rfl⟩
  case Finish =>
    exact ⟨rfl, rfl, fun t => rfl, fun k => rfl, fun k => rfl, rfl, rfl⟩
  all_goals exact Bool.noConfusion h

/-- Witness for C8 at the unrecognized identifier `Finish` on a database
with populated tables, checkpoints and snapshots. -/
theorem unrecognized_stage_resets_nothing_witness :
    recognizedStage StageEnum.Finish = false ∧
    ((Command.execute StageEnum.Finish
        ⟨fun _ => 3, fun _ => some 1, fun _ => some 2, 0, 0, fun _ => [0]⟩).1 =
      Except.ok () ∧
    (Command.execute StageEnum.Finish
        ⟨fun _ => 3, fun _ => some 1, fun _ => some 2, 0, 0, fun _ => [0]⟩).2.2 = true ∧
    (∀ t, (Command.execute StageEnum.Finish
        ⟨fun _ => 3, fun _ => some 1, fun _ => some 2, 0, 0, fun _ => [0]⟩).2.1.tables t =
      (⟨fun _ => 3, fun _ => some 1, fun _ => some 2, 0, 0, fun _ => [0]⟩ : Db).tables t) ∧
    (∀ k, (Command.execute StageEnum.Finish
        ⟨fun _ => 3, fun _ => some 1, fun _ => some 2, 0, 0, fun _ => [0]⟩).2.1.syncStage k =
      (⟨fun _ => 3, fun _ => some 1, fun _ => some 2, 0, 0, fun _ => [0]⟩ : Db).syncStage k) ∧
    (∀ k, (Command.execute StageEnum.Finish
        ⟨fun _ => 3, fun _ => some 1, fun _ => some 2, 0, 0, fun _ => [0]⟩).2.1.syncStageProgress k =
      (⟨fun _ => 3, fun _ => some 1, fun _ => some 2, 0, 0, fun _ => [0]⟩ : Db).syncStageProgress k) ∧
    (Command.execute StageEnum.Finish
        ⟨fun _ => 3, fun _ => some 1, fun _ => some 2, 0, 0, fun _ => [0]⟩).2.1.genesisHeaderInserts =
      (⟨fun _ => 3, fun _ => some 1, fun _ => some 2, 0, 0, fun _ => [0]⟩ : Db).genesisHeaderInserts ∧
    (Command.execute StageEnum.Finish
        ⟨fun _ => 3, fun _ => some 1, fun _ => some 2, 0, 0, fun _ => [0]⟩).2.1.genesisStateInserts =
      (⟨fun _ => 3, fun _ => some 1, fun _ => some 2, 0, 0, fun _ => [0]⟩ : Db).genesisStateInserts) :=
  ⟨rfl, unrecognized_stage_resets_nothing StageEnum.Finish _ rfl⟩

/-- Claim C9, counterexample to the "a genesis-derived row is re-inserted"
part: resetting the history-anchored stage `AccountHistory` on a concrete
database clears both history tables and rewrites the index checkpoints and
the shared finish checkpoint to the default value, but the genesis
re-insertion counters stay at zero — the `AccountHistory`/`StorageHistory`
branch of drop.rs calls neither `insert_genesis_header` nor
`insert_genesis_state`. -/
theorem history_stage_reset_no_genesis_row :
    (Command.execute StageEnum.AccountHistory
        ⟨fun _ => 5, fun _ => some 7, fun _ => some 7, 0, 0, fun _ => [0]⟩).2.1.tables
      Table.AccountHistory = 0 ∧
    (Command.execute StageEnum.AccountHistory
        ⟨fun _ => 5, fun _ => some 7, fun _ => some 7, 0, 0, fun _ => [0]⟩).2.1.syncStage
      StageId.IndexAccountHistory = some 0 ∧
    (Command.execute StageEnum.AccountHistory
        ⟨fun _ => 5, fun _ => some 7, fun _ => some 7, 0, 0, fun _ => [0]⟩).2.1.syncStage
      StageId.Finish = some 0 ∧
    (Command.execute StageEnum.AccountHistory
        ⟨fun _ => 5, fun _ => some 7, fun _ => some 7, 0, 0, fun _ => [0]⟩).2.1.genesisHeaderInserts = 0 ∧
    (Command.execute StageEnum.AccountHistory
        ⟨fun _ => 5, fun _ => some 7, fun _ => some 7, 0, 0, fun _ => [0]⟩).2.1.genesisStateInserts = 0 := by
  refine ⟨?_, ?_, ?_, rfl, rfl⟩ <;> decide

/-- Claim C9 as amended: resetting a history-anchored stage
(`AccountHistory` or `StorageHistory`) clears both history tables,
rewrites both history-index checkpoints and the shared finish checkpoint
to the default value, reports an action (not "nothing to do"), succeeds,
leaves every other table and checkpoint untouched — and inserts no
genesis-derived row. -/
theorem history_stage_reset (st : StageEnum) (db : Db)
    (h : st = StageEnum.AccountHistory ∨ st = StageEnum.StorageHistory) :
    (Command.execute st db).1 = Except.ok () ∧
    (Command.execute st db).2.2 = false ∧
    (Command.execute st db).2.1.tables Table.AccountHistory = 0 ∧
    (Command.execute st db).2.1.tables Table.StorageHistory = 0 ∧
    (Command.execute st db).2.1.syncStage StageId.IndexAccountHistory = some 0 ∧
    (Command.execute st db).2.1.syncStage StageId.IndexStorageHistory = some 0 ∧
    (Command.execute st db).2.1.syncStage StageId.Finish = some 0 ∧
    (Command.execute st db).2.1.genesisHeaderInserts = db.genesisHeaderInserts ∧
    (Command.execute st db).2.1.genesisStateInserts = db.genesisStateInserts ∧
    (∀ t, t ≠ Table.AccountHistory → t ≠ Table.StorageHistory →
      (Command.execute st db).2.1.tables t = db.tables t) ∧
    (∀ k, k ≠ StageId.IndexAccountHistory → k ≠ StageId.IndexStorageHistory →
      k ≠ StageId.Finish →
      (Command.execute st db).2.1.syncStage k = db.syncStage k) := by
  rcases h with h | h <;> subst h <;>
    refine ⟨rfl, rfl, ?_, ?_, ?_, ?_, ?_, rfl, rfl, ?_, ?_⟩ <;>
    simp [Command.execute, dropStageTx, dropStageMatch, snapshotSegmentOf,
      Db.clear, Db.putSyncStage] <;>
    intros <;>
    simp_all

/-- Witness for C9 (amended) at the concrete stage `StorageHistory` on a
populated database. -/
theorem history_stage_reset_witness :
    (Command.execute StageEnum.StorageHistory
        ⟨fun _ => 5, fun _ => some 7, fun _ => some 7, 4, 4, fun _ => [0]⟩).1 =
      Except.ok () ∧
    (Command.execute StageEnum.StorageHistory
        ⟨fun _ => 5, fun _ => some 7, fun _ => some 7, 4, 4, fun _ => [0]⟩).2.2 = false ∧
    (Command.execute StageEnum.StorageHistory
        ⟨fun _ => 5, fun _ => some 7, fun _ => some 7, 4, 4, fun _ => [0]⟩).2.1.tables
      Table.AccountHistory = 0 ∧
    (Command.execute StageEnum.StorageHistory
        ⟨fun _ => 5, fun _ => some 7, fun _ => some 7, 4, 4, fun _ => [0]⟩).2.1.tables
      Table.StorageHistory = 0 ∧
    (Command.execute StageEnum.StorageHistory
        ⟨fun _ => 5, fun _ => some 7, fun _ => some 7, 4, 4, fun _ => [0]⟩).2.1.syncStage
      StageId.IndexAccountHistory = some 0 ∧
    (Command.execute StageEnum.StorageHistory
        ⟨fun _ => 5, fun _ => some 7, fun _ => some 7, 4, 4, fun _ => [0]⟩).2.1.syncStage
      StageId.IndexStorageHistory = some 0 ∧
    (Command.execute StageEnum.StorageHistory
        ⟨fun _ => 5, fun _ => some 7, fun _ => some 7, 4, 4, fun _ => [0]⟩).2.1.syncStage
      StageId.Finish = some 0 ∧
    (Command.execute StageEnum.StorageHistory
        ⟨fun _ => 5, fun _ => some 7, fun _ => some 7, 4, 4, fun _ => [0]⟩).2.1.genesisHeaderInserts =
      (⟨fun _ => 5, fun _ => some 7, fun _ => some 7, 4, 4, fun _ => [0]⟩ : Db).genesisHeaderInserts ∧
    (Command.execute StageEnum.StorageHistory
        ⟨fun _ => 5, fun _ => some 7, fun _ => some 7, 4, 4, fun _ => [0]⟩).2.1.genesisStateInserts =
      (⟨fun _ => 5, fun _ => some 7, fun _ => some 7, 4, 4, fun _ => [0]⟩ : Db).genesisStateInserts ∧
    (∀ t, t ≠ Table.AccountHistory → t ≠ Table.StorageHistory →
      (Command.execute StageEnum.StorageHistory
          ⟨fun _ => 5, fun _ => some 7, fun _ => some 7, 4, 4, fun _ => [0]⟩).2.1.tables t =
        (⟨fun _ => 5, fun _ => some 7, fun _ => some 7, 4, 4, fun _ => [0]⟩ : Db).tables t) ∧
    (∀ k, k ≠ StageId.IndexAccountHistory → k ≠ StageId.IndexStorageHistory →
      k ≠ StageId.Finish →
      (Command.execute StageEnum.StorageHistory
          ⟨fun _ => 5, fun _ => some 7, fun _ => some 7, 4, 4, fun _ => [0]⟩).2.1.syncStage k =
        (⟨fun _ => 5, fun _ => some 7, fun _ => some 7, 4, 4, fun _ => [0]⟩ : Db).syncStage k) :=
  history_stage_reset StageEnum.StorageHistory _ (Or.inr rfl)

end StageDrop
